import Mathlib

/-!
Verification of the `SecurityScheme` record of
`openapi_schema_pydantic/v3/v3_1_0/security_scheme.py`.

The source declares a pydantic `BaseModel` with eight fields:
`type : str` (required, no default), five optional strings
(`description`, `name`, `security_scheme_in` aliased to the wire name
`in`, `scheme`, `bearerFormat`), an optional nested `flows : OAuthFlows`
record, and `openIdConnectUrl : Optional[Union[AnyUrl, str]]`.
Its `Config` sets `allow_population_by_field_name = True`, so an aliased
field may be populated by either its wire alias or its internal name.

We embed the wire data as an inductive `Value`, construction
(pydantic validation of a parsed mapping) as `construct`, and
serialization (emission of a mapping with wire names and without unset
fields) as `serialize`.
-/

namespace SecuritySchemeModel

/-- A wire value of a JSON/YAML-compatible mapping: string, integer,
boolean, null, or a nested mapping (association list, first key wins). -/
inductive Value where
  | vStr (s : String)
  | vInt (n : Int)
  | vBool (b : Bool)
  | vNull
  | vMap (entries : List (String × Value))

/-- A wire mapping: an association list from keys to wire values. -/
abbrev WireMap := List (String × Value)

/-- First-match lookup in a wire mapping. -/
def lookupK (k : String) : WireMap → Option Value
  | [] => none
  | (k', v) :: rest => if k' = k then some v else lookupK k rest

/-- The error taxonomy of construction: a required field absent, or a
field whose input cannot be coerced to its declared shape. -/
inductive FieldError where
  | missingRequiredField (field : String)
  | invalidFieldValue (field : String) (reason : String)
deriving DecidableEq

/-- Modelled from the spec: `OAuthFlows` is declared in
`oauth_flows.py`, which is not under `src/`; the spec requires of it only
that it is "constructible from a mapping, serializable back to an
equivalent mapping, and independent of this record's own validation",
so we model it as a wrapper around its wire mapping. -/
structure OAuthFlows where
  entries : List (String × Value)

/-- Modelled from the spec: strict URL parsing (pydantic's `AnyUrl`,
a library type not under `src/`). A string parses as a URL when it is
`scheme://rest` with a non-empty alphabetic scheme and non-empty rest. -/
def splitSchemeAux : List Char → List Char → Option (List Char × List Char)
  | [], _ => none
  | ':' :: '/' :: '/' :: rest, acc => some (acc.reverse, rest)
  | c :: rest, acc => splitSchemeAux rest (c :: acc)

/-- Modelled from the spec: whether a string parses as an absolute URL. -/
def isValidUrl (s : String) : Bool :=
  match splitSchemeAux s.toList [] with
  | some (scheme, rest) =>
      decide (scheme ≠ []) && scheme.all Char.isAlpha && decide (rest ≠ [])
  | none => false

/-- The value stored for `openIdConnectUrl : Optional[Union[AnyUrl, str]]`:
either a string that parsed as a strict URL, or the raw text kept opaque. -/
inductive UrlOrText where
  | strictUrl (s : String)
  | opaqueText (s : String)

/-- The original textual form of a `UrlOrText`, re-emitted on serialization. -/
def UrlOrText.text : UrlOrText → String
  | .strictUrl s => s
  | .opaqueText s => s

/-- Attempt strict URL parsing first; on failure keep the raw text. -/
def urlOrTextOf (s : String) : UrlOrText :=
  if isValidUrl s then .strictUrl s else .opaqueText s

/-- The `SecurityScheme` record: the eight fields declared in the source,
in declaration order. `security_scheme_in` is the internal name of the
field whose wire name is `in`. -/
structure SecurityScheme where
  type : String
  description : Option String := none
  name : Option String := none
  security_scheme_in : Option String := none
  scheme : Option String := none
  bearerFormat : Option String := none
  flows : Option OAuthFlows := none
  openIdConnectUrl : Option UrlOrText := none

/-- Pydantic-v1 string coercion applied to an optional string field:
absent and explicit null give `none`; strings are kept; integers and
booleans are coerced to their textual form; a nested mapping is rejected. -/
def parseOptStrAt (field : String) : Option Value → Except FieldError (Option String)
  | none => .ok none
  | some .vNull => .ok none
  | some (.vStr s) => .ok (some s)
  | some (.vInt n) => .ok (some (toString n))
  | some (.vBool b) => .ok (some (if b then "True" else "False"))
  | some (.vMap _) => .error (.invalidFieldValue field "str type expected")

/-- Parse an optional string field looked up under its own (wire) name. -/
def parseOptStr (field : String) (m : WireMap) : Except FieldError (Option String) :=
  parseOptStrAt field (lookupK field m)

/-- Parse the required `type : str` field: absent is a missing-field
error; null and mappings are invalid; strings/ints/bools coerce. -/
def parseType (m : WireMap) : Except FieldError String :=
  match lookupK "type" m with
  | none => .error (.missingRequiredField "type")
  | some .vNull => .error (.invalidFieldValue "type" "none is not an allowed value")
  | some (.vStr s) => .ok s
  | some (.vInt n) => .ok (toString n)
  | some (.vBool b) => .ok (if b then "True" else "False")
  | some (.vMap _) => .error (.invalidFieldValue "type" "str type expected")

/-- Lookup honouring `allow_population_by_field_name = True`: the wire
alias is consulted first, then the internal field name. -/
def lookupAliased (wireName fieldName : String) (m : WireMap) : Option Value :=
  match lookupK wireName m with
  | some v => some v
  | none => lookupK fieldName m

/-- Parse `security_scheme_in` (wire alias `in`). -/
def parseIn (m : WireMap) : Except FieldError (Option String) :=
  parseOptStrAt "in" (lookupAliased "in" "security_scheme_in" m)

/-- Parse `flows : Optional[OAuthFlows]`: absent/null give `none`, a
nested mapping constructs the nested record, a scalar is invalid. -/
def parseFlows (m : WireMap) : Except FieldError (Option OAuthFlows) :=
  match lookupK "flows" m with
  | none => .ok none
  | some .vNull => .ok none
  | some (.vMap es) => .ok (some ⟨es⟩)
  | some (.vStr _) => .error (.invalidFieldValue "flows" "value is not a valid dict")
  | some (.vInt _) => .error (.invalidFieldValue "flows" "value is not a valid dict")
  | some (.vBool _) => .error (.invalidFieldValue "flows" "value is not a valid dict")

/-- Parse `openIdConnectUrl : Optional[Union[AnyUrl, str]]`: a string
(or scalar coerced to a string) is tried as a strict URL and otherwise
kept as opaque text; it is never rejected. A mapping is invalid. -/
def parseOpenIdConnectUrl (m : WireMap) : Except FieldError (Option UrlOrText) :=
  match lookupK "openIdConnectUrl" m with
  | none => .ok none
  | some .vNull => .ok none
  | some (.vStr s) => .ok (some (urlOrTextOf s))
  | some (.vInt n) => .ok (some (urlOrTextOf (toString n)))
  | some (.vBool b) => .ok (some (urlOrTextOf (if b then "True" else "False")))
  | some (.vMap _) => .error (.invalidFieldValue "openIdConnectUrl" "str type expected")

/-- Lift a single field result into the collected-errors form. -/
def liftE {α : Type} : Except FieldError α → Except (List FieldError) α
  | .ok a => .ok a
  | .error e => .error [e]

/-- Combine an accumulated result with the next field's result,
collecting the errors of both (pydantic validates every field and
reports all failures together). -/
def comb {α β : Type} :
    Except (List FieldError) α → Except FieldError β →
    Except (List FieldError) (α × β)
  | .ok a, .ok b => .ok (a, b)
  | .ok _, .error e => .error [e]
  | .error es, .ok _ => .error es
  | .error es, .error e => .error (es ++ [e])

/-- All eight field results combined in declaration order. -/
def fieldsE (m : WireMap) :
    Except (List FieldError)
      (((((((String × Option String) × Option String) × Option String) ×
        Option String) × Option String) × Option OAuthFlows) × Option UrlOrText) :=
  comb (comb (comb (comb (comb (comb (comb
    (liftE (parseType m))
    (parseOptStr "description" m))
    (parseOptStr "name" m))
    (parseIn m))
    (parseOptStr "scheme" m))
    (parseOptStr "bearerFormat" m))
    (parseFlows m))
    (parseOpenIdConnectUrl m)

/-- Construction of a `SecurityScheme` from a wire mapping: every field
is validated; the record is produced only when all fields validate, and
otherwise the list of all field errors is returned (no partial record). -/
def construct (m : WireMap) : Except (List FieldError) SecurityScheme :=
  match fieldsE m with
  | .ok (((((((t, d), n), i), sc), b), f), o) => .ok ⟨t, d, n, i, sc, b, f, o⟩
  | .error es => .error es

/-- The serialized entry of an optional string field: nothing when the
field is unset, one wire entry when it is set. -/
def optEntry (k : String) : Option String → WireMap
  | none => []
  | some s => [(k, .vStr s)]

/-- Modelled from the spec: serialization of a record back to a wire
mapping (the serializing caller — `.dict(by_alias=True,
exclude_none=True)` — is not under `src/`). The output contains only the
fields that are set, under their wire names (`in`, not
`security_scheme_in`); `openIdConnectUrl` re-emits its original text. -/
def serialize (r : SecurityScheme) : WireMap :=
  ("type", .vStr r.type) ::
    (optEntry "description" r.description ++
     optEntry "name" r.name ++
     optEntry "in" r.security_scheme_in ++
     optEntry "scheme" r.scheme ++
     optEntry "bearerFormat" r.bearerFormat ++
     (match r.flows with
      | none => []
      | some f => [("flows", .vMap f.entries)]) ++
     (match r.openIdConnectUrl with
      | none => []
      | some u => [("openIdConnectUrl", .vStr u.text)]))

/-! ### Lookup lemmas -/

theorem lookupK_append (k : String) (l₁ l₂ : WireMap) :
    lookupK k (l₁ ++ l₂) = ((lookupK k l₁).rec (lookupK k l₂) (fun v => some v)) := by
  induction l₁ with
  | nil => simp [lookupK]
  | cons p rest ih =>
      obtain ⟨k', v⟩ := p
      by_cases h : k' = k <;> simp [lookupK, h, ih]

theorem lookupK_eq_none_of_not_mem (k : String) (l : WireMap)
    (h : k ∉ l.map Prod.fst) : lookupK k l = none := by
  induction l with
  | nil => rfl
  | cons p rest ih =>
      obtain ⟨k', v⟩ := p
      simp only [List.map_cons, List.mem_cons] at h
      push_neg at h
      simp [lookupK, Ne.symm h.1, ih h.2]

theorem lookupK_mem (k : String) (v : Value) (l : WireMap)
    (h : lookupK k l = some v) : (k, v) ∈ l := by
  induction l with
  | nil => simp [lookupK] at h
  | cons p rest ih =>
      obtain ⟨k', v'⟩ := p
      by_cases hk : k' = k
      · subst hk
        simp [lookupK] at h
        simp [h]
      · simp [lookupK, hk] at h
        exact List.mem_cons_of_mem _ (ih h)

theorem lookupK_optEntry (k k' : String) (o : Option String) :
    lookupK k (optEntry k' o) =
      if k' = k then o.map Value.vStr else none := by
  cases o <;> by_cases h : k' = k <;> simp [optEntry, lookupK, h]

/-! ### Lookup on serialized output -/

theorem lookupK_serialize_type (r : SecurityScheme) :
    lookupK "type" (serialize r) = some (.vStr r.type) := by
  simp [serialize, lookupK]

theorem lookupK_serialize_description (r : SecurityScheme) :
    lookupK "description" (serialize r) = r.description.map .vStr := by
  simp only [serialize, lookupK, lookupK_append, lookupK_optEntry]
  cases r.description <;> cases r.name <;> cases r.security_scheme_in <;>
    cases r.scheme <;> cases r.bearerFormat <;> cases r.flows <;>
    cases r.openIdConnectUrl <;> simp [lookupK]

theorem lookupK_serialize_name (r : SecurityScheme) :
    lookupK "name" (serialize r) = r.name.map .vStr := by
  simp only [serialize, lookupK, lookupK_append, lookupK_optEntry]
  cases r.description <;> cases r.name <;> cases r.security_scheme_in <;>
    cases r.scheme <;> cases r.bearerFormat <;> cases r.flows <;>
    cases r.openIdConnectUrl <;> simp [lookupK]

theorem lookupK_serialize_in (r : SecurityScheme) :
    lookupK "in" (serialize r) = r.security_scheme_in.map .vStr := by
  simp only [serialize, lookupK, lookupK_append, lookupK_optEntry]
  cases r.description <;> cases r.name <;> cases r.security_scheme_in <;>
    cases r.scheme <;> cases r.bearerFormat <;> cases r.flows <;>
    cases r.openIdConnectUrl <;> simp [lookupK]

theorem lookupK_serialize_scheme (r : SecurityScheme) :
    lookupK "scheme" (serialize r) = r.scheme.map .vStr := by
  simp only [serialize, lookupK, lookupK_append, lookupK_optEntry]
  cases r.description <;> cases r.name <;> cases r.security_scheme_in <;>
    cases r.scheme <;> cases r.bearerFormat <;> cases r.flows <;>
    cases r.openIdConnectUrl <;> simp [lookupK]

theorem lookupK_serialize_bearerFormat (r : SecurityScheme) :
    lookupK "bearerFormat" (serialize r) = r.bearerFormat.map .vStr := by
  simp only [serialize, lookupK, lookupK_append, lookupK_optEntry]
  cases r.description <;> cases r.name <;> cases r.security_scheme_in <;>
    cases r.scheme <;> cases r.bearerFormat <;> cases r.flows <;>
    cases r.openIdConnectUrl <;> simp [lookupK]

theorem lookupK_serialize_flows (r : SecurityScheme) :
    lookupK "flows" (serialize r) =
      r.flows.map (fun f => .vMap f.entries) := by
  simp only [serialize, lookupK, lookupK_append, lookupK_optEntry]
  cases r.description <;> cases r.name <;> cases r.security_scheme_in <;>
    cases r.scheme <;> cases r.bearerFormat <;> cases r.flows <;>
    cases r.openIdConnectUrl <;> simp [lookupK]

theorem lookupK_serialize_openIdConnectUrl (r : SecurityScheme) :
    lookupK "openIdConnectUrl" (serialize r) =
      r.openIdConnectUrl.map (fun u => .vStr u.text) := by
  simp only [serialize, lookupK, lookupK_append, lookupK_optEntry]
  cases r.description <;> cases r.name <;> cases r.security_scheme_in <;>
    cases r.scheme <;> cases r.bearerFormat <;> cases r.flows <;>
    cases r.openIdConnectUrl <;> simp [lookupK]

theorem lookupK_serialize_security_scheme_in (r : SecurityScheme) :
    lookupK "security_scheme_in" (serialize r) = none := by
  simp only [serialize, lookupK, lookupK_append, lookupK_optEntry]
  cases r.description <;> cases r.name <;> cases r.security_scheme_in <;>
    cases r.scheme <;> cases r.bearerFormat <;> cases r.flows <;>
    cases r.openIdConnectUrl <;> simp [lookupK]

/-! ### Combination lemmas -/

theorem liftE_ok_iff {α : Type} (x : Except FieldError α) (a : α) :
    liftE x = .ok a ↔ x = .ok a := by
  cases x <;> simp [liftE]

theorem comb_ok_iff {α β : Type} (x : Except (List FieldError) α)
    (y : Except FieldError β) (a : α) (b : β) :
    comb x y = .ok (a, b) ↔ x = .ok a ∧ y = .ok b := by
  cases x <;> cases y <;> simp [comb, and_assoc]

theorem comb_mem_left {α β : Type} {x : Except (List FieldError) α}
    {es : List FieldError} {e : FieldError}
    (hx : x = .error es) (he : e ∈ es) (y : Except FieldError β) :
    ∃ es', comb x y = .error es' ∧ e ∈ es' := by
  subst hx
  cases y <;> simp [comb] <;> simp [he]

theorem comb_mem_right {α β : Type} (x : Except (List FieldError) α)
    {y : Except FieldError β} {e : FieldError} (hy : y = .error e) :
    ∃ es', comb x y = .error es' ∧ e ∈ es' := by
  subst hy
  cases x <;> simp [comb]

/-- Inversion of construction: succeeding with record `r` is exactly all
eight field parses succeeding with `r`'s fields. -/
theorem construct_ok_iff (m : WireMap) (r : SecurityScheme) :
    construct m = .ok r ↔
      parseType m = .ok r.type ∧
      parseOptStr "description" m = .ok r.description ∧
      parseOptStr "name" m = .ok r.name ∧
      parseIn m = .ok r.security_scheme_in ∧
      parseOptStr "scheme" m = .ok r.scheme ∧
      parseOptStr "bearerFormat" m = .ok r.bearerFormat ∧
      parseFlows m = .ok r.flows ∧
      parseOpenIdConnectUrl m = .ok r.openIdConnectUrl := by
  obtain ⟨t, d, n, i, sc, b, f, o⟩ := r
  constructor
  · intro h
    unfold construct at h
    split at h
    · rename_i tup heq
      simp only [Except.ok.injEq, SecurityScheme.mk.injEq] at h
      obtain ⟨h1, h2, h3, h4, h5, h6, h7, h8⟩ := h
      subst h1 h2 h3 h4 h5 h6 h7 h8
      unfold fieldsE at heq
      rw [comb_ok_iff] at heq
      obtain ⟨heq, ho⟩ := heq
      rw [comb_ok_iff] at heq
      obtain ⟨heq, hf⟩ := heq
      rw [comb_ok_iff] at heq
      obtain ⟨heq, hb⟩ := heq
      rw [comb_ok_iff] at heq
      obtain ⟨heq, hsc⟩ := heq
      rw [comb_ok_iff] at heq
      obtain ⟨heq, hi⟩ := heq
      rw [comb_ok_iff] at heq
      obtain ⟨heq, hn⟩ := heq
      rw [comb_ok_iff] at heq
      obtain ⟨ht, hd⟩ := heq
      rw [liftE_ok_iff] at ht
      exact ⟨ht, hd, hn, hi, hsc, hb, hf, ho⟩
    · exact absurd h (by simp)
  · rintro ⟨ht, hd, hn, hi, hsc, hb, hf, ho⟩
    have : fieldsE m = .ok (((((((t, d), n), i), sc), b), f), o) := by
      unfold fieldsE
      rw [comb_ok_iff, comb_ok_iff, comb_ok_iff, comb_ok_iff, comb_ok_iff,
        comb_ok_iff, comb_ok_iff, liftE_ok_iff]
      exact ⟨⟨⟨⟨⟨⟨⟨ht, hd⟩, hn⟩, hi⟩, hsc⟩, hb⟩, hf⟩, ho⟩
    unfold construct
    rw [this]

/-! ### Well-formedness of stored URL-or-text values -/

/-- A stored `openIdConnectUrl` value is well formed when its variant
agrees with `isValidUrl` on its text. Every value produced by parsing is. -/
def UrlOrText.WF : UrlOrText → Prop
  | .strictUrl s => isValidUrl s = true
  | .opaqueText s => isValidUrl s = false

theorem urlOrTextOf_WF (s : String) : (urlOrTextOf s).WF := by
  unfold urlOrTextOf
  by_cases h : isValidUrl s = true <;> simp [h, UrlOrText.WF]

theorem urlOrTextOf_text (s : String) : (urlOrTextOf s).text = s := by
  unfold urlOrTextOf
  by_cases h : isValidUrl s = true <;> simp [h, UrlOrText.text]

theorem urlOrTextOf_of_WF (u : UrlOrText) (h : u.WF) : urlOrTextOf u.text = u := by
  cases u <;> simp [UrlOrText.WF] at h <;>
    simp [urlOrTextOf, UrlOrText.text, h]

theorem parseOpenIdConnectUrl_WF (m : WireMap) (u : UrlOrText)
    (h : parseOpenIdConnectUrl m = .ok (some u)) : u.WF := by
  unfold parseOpenIdConnectUrl at h
  split at h <;> simp at h <;> rw [← h] <;> exact urlOrTextOf_WF _

/-! ### Re-parsing a serialized record -/

theorem parseType_serialize (r : SecurityScheme) :
    parseType (serialize r) = .ok r.type := by
  unfold parseType
  rw [lookupK_serialize_type]

theorem parseOptStrAt_map_vStr (field : String) (o : Option String) :
    parseOptStrAt field (o.map .vStr) = .ok o := by
  cases o <;> rfl

theorem parseDescription_serialize (r : SecurityScheme) :
    parseOptStr "description" (serialize r) = .ok r.description := by
  unfold parseOptStr
  rw [lookupK_serialize_description, parseOptStrAt_map_vStr]

theorem parseName_serialize (r : SecurityScheme) :
    parseOptStr "name" (serialize r) = .ok r.name := by
  unfold parseOptStr
  rw [lookupK_serialize_name, parseOptStrAt_map_vStr]

theorem parseIn_serialize (r : SecurityScheme) :
    parseIn (serialize r) = .ok r.security_scheme_in := by
  unfold parseIn lookupAliased
  rw [lookupK_serialize_in]
  cases hi : r.security_scheme_in with
  | none =>
      rw [lookupK_serialize_security_scheme_in]
      rfl
  | some s => rfl

theorem parseScheme_serialize (r : SecurityScheme) :
    parseOptStr "scheme" (serialize r) = .ok r.scheme := by
  unfold parseOptStr
  rw [lookupK_serialize_scheme, parseOptStrAt_map_vStr]

theorem parseBearerFormat_serialize (r : SecurityScheme) :
    parseOptStr "bearerFormat" (serialize r) = .ok r.bearerFormat := by
  unfold parseOptStr
  rw [lookupK_serialize_bearerFormat, parseOptStrAt_map_vStr]

theorem parseFlows_serialize (r : SecurityScheme) :
    parseFlows (serialize r) = .ok r.flows := by
  unfold parseFlows
  rw [lookupK_serialize_flows]
  cases r.flows <;> rfl

theorem parseOpenIdConnectUrl_serialize (r : SecurityScheme)
    (h : ∀ u, r.openIdConnectUrl = some u → u.WF) :
    parseOpenIdConnectUrl (serialize r) = .ok r.openIdConnectUrl := by
  unfold parseOpenIdConnectUrl
  rw [lookupK_serialize_openIdConnectUrl]
  cases ho : r.openIdConnectUrl with
  | none => rfl
  | some u =>
      show Except.ok (some (urlOrTextOf u.text)) = Except.ok (some u)
      rw [urlOrTextOf_of_WF u (h u ho)]

/-- Core round-trip lemma: a record produced by construction is
reproduced exactly by constructing from its own serialization. -/
theorem construct_serialize_roundtrip (m : WireMap) (r : SecurityScheme)
    (h : construct m = .ok r) : construct (serialize r) = .ok r := by
  have hwf : ∀ u, r.openIdConnectUrl = some u → u.WF := by
    intro u hu
    have ho := ((construct_ok_iff m r).1 h).2.2.2.2.2.2.2
    rw [hu] at ho
    exact parseOpenIdConnectUrl_WF m u ho
  rw [construct_ok_iff]
  exact ⟨parseType_serialize r, parseDescription_serialize r,
    parseName_serialize r, parseIn_serialize r, parseScheme_serialize r,
    parseBearerFormat_serialize r, parseFlows_serialize r,
    parseOpenIdConnectUrl_serialize r hwf⟩

/-! ### Error paths -/

theorem construct_error_of_fieldsE (m : WireMap) (es : List FieldError)
    (h : fieldsE m = .error es) : construct m = .error es := by
  unfold construct
  rw [h]

/-- If the `type` parse fails with `e`, construction fails and reports `e`. -/
theorem construct_error_of_parseType (m : WireMap) (e : FieldError)
    (h : parseType m = .error e) :
    ∃ es, construct m = .error es ∧ e ∈ es := by
  have h0 : liftE (parseType m) = .error [e] := by rw [h]; rfl
  have h1 := comb_mem_left h0 (List.mem_singleton.2 rfl)
    (parseOptStr "description" m)
  obtain ⟨es1, h1, hm1⟩ := h1
  obtain ⟨es2, h2, hm2⟩ := comb_mem_left h1 hm1 (parseOptStr "name" m)
  obtain ⟨es3, h3, hm3⟩ := comb_mem_left h2 hm2 (parseIn m)
  obtain ⟨es4, h4, hm4⟩ := comb_mem_left h3 hm3 (parseOptStr "scheme" m)
  obtain ⟨es5, h5, hm5⟩ := comb_mem_left h4 hm4 (parseOptStr "bearerFormat" m)
  obtain ⟨es6, h6, hm6⟩ := comb_mem_left h5 hm5 (parseFlows m)
  obtain ⟨es7, h7, hm7⟩ := comb_mem_left h6 hm6 (parseOpenIdConnectUrl m)
  exact ⟨es7, construct_error_of_fieldsE m es7 h7, hm7⟩

/-- If the `flows` parse fails with `e`, construction fails and reports `e`. -/
theorem construct_error_of_parseFlows (m : WireMap) (e : FieldError)
    (h : parseFlows m = .error e) :
    ∃ es, construct m = .error es ∧ e ∈ es := by
  obtain ⟨es6, h6, hm6⟩ := comb_mem_right
    (comb (comb (comb (comb (comb
      (liftE (parseType m)) (parseOptStr "description" m))
      (parseOptStr "name" m)) (parseIn m)) (parseOptStr "scheme" m))
      (parseOptStr "bearerFormat" m)) h
  obtain ⟨es7, h7, hm7⟩ := comb_mem_left h6 hm6 (parseOpenIdConnectUrl m)
  exact ⟨es7, construct_error_of_fieldsE m es7 h7, hm7⟩

/-- A scalar wire value: a string, integer or boolean (not null, which
marks an explicitly absent optional field, and not a nested mapping). -/
def isScalar : Value → Bool
  | .vStr _ => true
  | .vInt _ => true
  | .vBool _ => true
  | .vNull => false
  | .vMap _ => false

theorem parseFlows_error_of_scalar (m : WireMap) (v : Value)
    (hl : lookupK "flows" m = some v) (hs : isScalar v = true) :
    parseFlows m = .error (.invalidFieldValue "flows" "value is not a valid dict") := by
  unfold parseFlows
  rw [hl]
  cases v <;> simp [isScalar] at hs ⊢

/-! ### Claim theorems -/

/-- C1: For every valid wire mapping `m` that contains a `type` key,
constructing a `SecurityScheme` from `m`, serializing it, and
constructing again from that serialized mapping yields a record equal to
the one constructed directly from `m`:
`deserialize(serialize(deserialize(m))) == deserialize(m)`. -/
theorem C1_roundtrip_idempotent (m : WireMap) (r : SecurityScheme)
    (_hty : (lookupK "type" m).isSome) (h : construct m = .ok r) :
    construct (serialize r) = .ok r :=
  construct_serialize_roundtrip m r h

/-- Witness for C1 at the mapping `{"type": "http", "scheme": "basic"}`. -/
theorem C1_roundtrip_idempotent_witness :
    construct (serialize ⟨"http", none, none, none, some "basic", none, none, none⟩) =
      .ok ⟨"http", none, none, none, some "basic", none, none, none⟩ :=
  C1_roundtrip_idempotent
    [("type", .vStr "http"), ("scheme", .vStr "basic")]
    ⟨"http", none, none, none, some "basic", none, none, none⟩
    (by rfl) (by rfl)

/-- C2: For every input mapping that has no `type` key, constructing a
`SecurityScheme` fails with a `MissingRequiredField` error; for no such
mapping does construction succeed. -/
theorem C2_missing_type_fails (m : WireMap)
    (h : lookupK "type" m = none) :
    (∃ es, construct m = .error es ∧ .missingRequiredField "type" ∈ es) ∧
      ∀ r, construct m ≠ .ok r := by
  have ht : parseType m = .error (.missingRequiredField "type") := by
    unfold parseType
    rw [h]
  obtain ⟨es, he, hm⟩ := construct_error_of_parseType m _ ht
  refine ⟨⟨es, he, hm⟩, ?_⟩
  intro r hc
  rw [he] at hc
  exact absurd hc (by simp)

/-- Witness for C2 at the mapping `{"scheme": "basic"}`. -/
theorem C2_missing_type_fails_witness :
    (∃ es, construct [("scheme", .vStr "basic")] = .error es ∧
        .missingRequiredField "type" ∈ es) ∧
      ∀ r, construct [("scheme", .vStr "basic")] ≠ .ok r :=
  C2_missing_type_fails [("scheme", .vStr "basic")] (by rfl)

/-- Parses other than the location field ignore the `in` and
`security_scheme_in` keys, so they agree on the two spellings. -/
theorem parses_agree_on_alias_spelling (rest : WireMap) (v : Value)
    (h1 : "in" ∉ rest.map Prod.fst)
    (_h2 : "security_scheme_in" ∉ rest.map Prod.fst) :
    parseType (("in", v) :: rest) = parseType (("security_scheme_in", v) :: rest) ∧
    (∀ f, f ∈ ["description", "name", "scheme", "bearerFormat"] →
      parseOptStr f (("in", v) :: rest) = parseOptStr f (("security_scheme_in", v) :: rest)) ∧
    parseIn (("in", v) :: rest) = parseIn (("security_scheme_in", v) :: rest) ∧
    parseFlows (("in", v) :: rest) = parseFlows (("security_scheme_in", v) :: rest) ∧
    parseOpenIdConnectUrl (("in", v) :: rest) =
      parseOpenIdConnectUrl (("security_scheme_in", v) :: rest) := by
  have hk : ∀ k : String, k ≠ "in" → k ≠ "security_scheme_in" →
      lookupK k (("in", v) :: rest) = lookupK k (("security_scheme_in", v) :: rest) := by
    intro k hki hks
    simp [lookupK, Ne.symm hki, Ne.symm hks]
  have hali : lookupAliased "in" "security_scheme_in" (("in", v) :: rest) = some v := by
    simp [lookupAliased, lookupK]
  have hals : lookupAliased "in" "security_scheme_in"
      (("security_scheme_in", v) :: rest) = some v := by
    unfold lookupAliased
    rw [show lookupK "in" (("security_scheme_in", v) :: rest) = none by
      simp [lookupK, lookupK_eq_none_of_not_mem _ _ h1]]
    simp [lookupK]
  refine ⟨?_, ?_, ?_, ?_, ?_⟩
  · unfold parseType
    rw [hk "type" (by decide) (by decide)]
  · intro f hf
    unfold parseOptStr
    fin_cases hf <;> rw [hk _ (by decide) (by decide)]
  · unfold parseIn
    rw [hali, hals]
  · unfold parseFlows
    rw [hk "flows" (by decide) (by decide)]
  · unfold parseOpenIdConnectUrl
    rw [hk "openIdConnectUrl" (by decide) (by decide)]

/-- The eight wire names a serialized record may use. -/
def wireNames : List String :=
  ["type", "description", "name", "in", "scheme", "bearerFormat",
   "flows", "openIdConnectUrl"]

/-- Every serialized entry uses one of the eight wire names and never
carries a null placeholder value. -/
theorem serialize_entries (r : SecurityScheme) :
    ∀ p ∈ serialize r, p.1 ∈ wireNames ∧ p.2 ≠ Value.vNull := by
  obtain ⟨t, d, n, i, sc, b, f, o⟩ := r
  cases d <;> cases n <;> cases i <;> cases sc <;> cases b <;> cases f <;>
    cases o <;> simp [serialize, optEntry, wireNames]

theorem serialize_keys_subset (r : SecurityScheme) (k : String)
    (h : k ∈ (serialize r).map Prod.fst) : k ∈ wireNames := by
  obtain ⟨p, hp, hk⟩ := List.mem_map.1 h
  exact hk ▸ (serialize_entries r p hp).1

/-- C3: For every location value `v`, constructing with the wire key
`in` bound to `v` and constructing with the internal key
`security_scheme_in` bound to `v` (all other inputs equal) yield equal
results; and for every record, serialization emits the key `in` for a
set location field and never emits the key `security_scheme_in`. -/
theorem C3_alias_population_and_emission (rest : WireMap) (v : Value)
    (h1 : "in" ∉ rest.map Prod.fst)
    (h2 : "security_scheme_in" ∉ rest.map Prod.fst) :
    construct (("in", v) :: rest) = construct (("security_scheme_in", v) :: rest) ∧
    (∀ r : SecurityScheme,
      "security_scheme_in" ∉ (serialize r).map Prod.fst ∧
      ∀ s, r.security_scheme_in = some s → ("in", .vStr s) ∈ serialize r) := by
  obtain ⟨ht, hopt, hi, hf, ho⟩ := parses_agree_on_alias_spelling rest v h1 h2
  constructor
  · unfold construct fieldsE
    rw [ht, hopt "description" (by simp), hopt "name" (by simp), hi,
      hopt "scheme" (by simp), hopt "bearerFormat" (by simp), hf, ho]
  · intro r
    constructor
    · intro hmem
      exact absurd (serialize_keys_subset r _ hmem) (by decide)
    · intro s hs
      apply lookupK_mem
      rw [lookupK_serialize_in, hs]
      rfl

/-- Witness for C3 at `rest = [("type", "apiKey")]`, `v = "header"`. -/
theorem C3_alias_population_and_emission_witness :
    (construct [("in", .vStr "header"), ("type", .vStr "apiKey")] =
      construct [("security_scheme_in", .vStr "header"), ("type", .vStr "apiKey")]) ∧
    (∀ r : SecurityScheme,
      "security_scheme_in" ∉ (serialize r).map Prod.fst ∧
      ∀ s, r.security_scheme_in = some s → ("in", .vStr s) ∈ serialize r) :=
  C3_alias_population_and_emission [("type", .vStr "apiKey")] (.vStr "header")
    (by decide) (by decide)

/-- C4: Construction accepts any string for `openIdConnectUrl` without
error — `"https://example.com/openIdConnect"` is stored as a parsed URL
and `"openIdConnect"` (not a valid URL) as opaque text — and in both
cases serialization re-emits exactly the original input string. -/
theorem C4_openIdConnectUrl_url_or_text :
    (∀ s : String, parseOpenIdConnectUrl [("type", .vStr "openIdConnect"),
        ("openIdConnectUrl", .vStr s)] = .ok (some (urlOrTextOf s))) ∧
    construct [("type", .vStr "openIdConnect"),
        ("openIdConnectUrl", .vStr "https://example.com/openIdConnect")] =
      .ok ⟨"openIdConnect", none, none, none, none, none, none,
        some (.strictUrl "https://example.com/openIdConnect")⟩ ∧
    construct [("type", .vStr "openIdConnect"),
        ("openIdConnectUrl", .vStr "openIdConnect")] =
      .ok ⟨"openIdConnect", none, none, none, none, none, none,
        some (.opaqueText "openIdConnect")⟩ ∧
    serialize ⟨"openIdConnect", none, none, none, none, none, none,
        some (.strictUrl "https://example.com/openIdConnect")⟩ =
      [("type", .vStr "openIdConnect"),
       ("openIdConnectUrl", .vStr "https://example.com/openIdConnect")] ∧
    serialize ⟨"openIdConnect", none, none, none, none, none, none,
        some (.opaqueText "openIdConnect")⟩ =
      [("type", .vStr "openIdConnect"),
       ("openIdConnectUrl", .vStr "openIdConnect")] :=
  ⟨fun _ => rfl, rfl, rfl, rfl, rfl⟩

/-- C5: For every constructed `SecurityScheme`, the serialized output
mapping contains exactly the fields that were set: the required `type`
and each set optional field under its wire name; a field that was never
set is absent, no other keys appear, and no entry is a null placeholder. -/
theorem C5_serialize_exactly_set_fields (r : SecurityScheme) :
    lookupK "type" (serialize r) = some (.vStr r.type) ∧
    ((lookupK "description" (serialize r)).isSome ↔ r.description.isSome) ∧
    ((lookupK "name" (serialize r)).isSome ↔ r.name.isSome) ∧
    ((lookupK "in" (serialize r)).isSome ↔ r.security_scheme_in.isSome) ∧
    ((lookupK "scheme" (serialize r)).isSome ↔ r.scheme.isSome) ∧
    ((lookupK "bearerFormat" (serialize r)).isSome ↔ r.bearerFormat.isSome) ∧
    ((lookupK "flows" (serialize r)).isSome ↔ r.flows.isSome) ∧
    ((lookupK "openIdConnectUrl" (serialize r)).isSome ↔ r.openIdConnectUrl.isSome) ∧
    (∀ k, k ∉ wireNames → k ∉ (serialize r).map Prod.fst) ∧
    (∀ p, p ∈ serialize r → p.2 ≠ Value.vNull) := by
  refine ⟨lookupK_serialize_type r, ?_, ?_, ?_, ?_, ?_, ?_, ?_, ?_, ?_⟩
  · rw [lookupK_serialize_description]; cases r.description <;> simp
  · rw [lookupK_serialize_name]; cases r.name <;> simp
  · rw [lookupK_serialize_in]; cases r.security_scheme_in <;> simp
  · rw [lookupK_serialize_scheme]; cases r.scheme <;> simp
  · rw [lookupK_serialize_bearerFormat]; cases r.bearerFormat <;> simp
  · rw [lookupK_serialize_flows]; cases r.flows <;> simp
  · rw [lookupK_serialize_openIdConnectUrl]; cases r.openIdConnectUrl <;> simp
  · intro k hk hmem
    exact hk (serialize_keys_subset r k hmem)
  · intro p hp
    exact (serialize_entries r p hp).2

/-- Witness for C5 at a record with only `type` and `scheme` set: an
unknown key is absent from the serialized output. -/
theorem C5_serialize_exactly_set_fields_witness :
    "x-extension" ∉
      (serialize ⟨"http", none, none, none, some "basic", none, none, none⟩).map Prod.fst :=
  (C5_serialize_exactly_set_fields
    ⟨"http", none, none, none, some "basic", none, none, none⟩).2.2.2.2.2.2.2.2.1
    "x-extension" (by decide)

/-! ### Shape predicates: the only conditions construction checks -/

/-- The shapes the required `type` field accepts: a present scalar that
coerces to a string. -/
def typeShapeOk : Option Value → Bool
  | some (.vStr _) => true
  | some (.vInt _) => true
  | some (.vBool _) => true
  | _ => false

/-- The shapes an optional string-like field accepts: anything except a
nested mapping. -/
def optStrShapeOk : Option Value → Bool
  | some (.vMap _) => false
  | _ => true

/-- The shapes `flows` accepts: absent, null, or a nested mapping. -/
def flowsShapeOk : Option Value → Bool
  | none => true
  | some .vNull => true
  | some (.vMap _) => true
  | _ => false

theorem parseType_ok_of_shape (m : WireMap)
    (h : typeShapeOk (lookupK "type" m) = true) :
    ∃ t, parseType m = .ok t := by
  unfold parseType
  rcases hl : lookupK "type" m with _ | v
  · rw [hl] at h; simp [typeShapeOk] at h
  · rw [hl] at h; cases v <;> simp [typeShapeOk] at h <;> exact ⟨_, rfl⟩

theorem parseOptStrAt_ok_of_shape (f : String) (v? : Option Value)
    (h : optStrShapeOk v? = true) :
    ∃ o, parseOptStrAt f v? = .ok o := by
  rcases v? with _ | v
  · exact ⟨none, rfl⟩
  · cases v <;> simp [optStrShapeOk] at h <;> exact ⟨_, rfl⟩

theorem parseFlows_ok_of_shape (m : WireMap)
    (h : flowsShapeOk (lookupK "flows" m) = true) :
    ∃ o, parseFlows m = .ok o := by
  unfold parseFlows
  rcases hl : lookupK "flows" m with _ | v
  · exact ⟨none, rfl⟩
  · rw [hl] at h; cases v <;> simp [flowsShapeOk] at h <;> exact ⟨_, rfl⟩

theorem parseOpenIdConnectUrl_ok_of_shape (m : WireMap)
    (h : optStrShapeOk (lookupK "openIdConnectUrl" m) = true) :
    ∃ o, parseOpenIdConnectUrl m = .ok o := by
  unfold parseOpenIdConnectUrl
  rcases hl : lookupK "openIdConnectUrl" m with _ | v
  · exact ⟨none, rfl⟩
  · rw [hl] at h; cases v <;> simp [optStrShapeOk] at h <;> exact ⟨_, rfl⟩

/-- C6: For every input mapping containing a `type` (and every present
field merely of its declared basic shape), construction succeeds: it
never fails because the conditional companion fields of the given type
are unset or because fields of another type-group are set — conditional
requirements are documentation-only, not enforced. -/
theorem C6_no_conditional_enforcement (m : WireMap)
    (hty : typeShapeOk (lookupK "type" m) = true)
    (hd : optStrShapeOk (lookupK "description" m) = true)
    (hn : optStrShapeOk (lookupK "name" m) = true)
    (hi : optStrShapeOk (lookupAliased "in" "security_scheme_in" m) = true)
    (hsc : optStrShapeOk (lookupK "scheme" m) = true)
    (hb : optStrShapeOk (lookupK "bearerFormat" m) = true)
    (hf : flowsShapeOk (lookupK "flows" m) = true)
    (ho : optStrShapeOk (lookupK "openIdConnectUrl" m) = true) :
    ∃ r, construct m = .ok r := by
  obtain ⟨t, ht⟩ := parseType_ok_of_shape m hty
  obtain ⟨d, hd'⟩ := parseOptStrAt_ok_of_shape "description" _ hd
  obtain ⟨n, hn'⟩ := parseOptStrAt_ok_of_shape "name" _ hn
  obtain ⟨i, hi'⟩ := parseOptStrAt_ok_of_shape "in" _ hi
  obtain ⟨sc, hsc'⟩ := parseOptStrAt_ok_of_shape "scheme" _ hsc
  obtain ⟨b, hb'⟩ := parseOptStrAt_ok_of_shape "bearerFormat" _ hb
  obtain ⟨f, hf'⟩ := parseFlows_ok_of_shape m hf
  obtain ⟨o, ho'⟩ := parseOpenIdConnectUrl_ok_of_shape m ho
  exact ⟨⟨t, d, n, i, sc, b, f, o⟩, (construct_ok_iff m _).2
    ⟨ht, hd', hn', hi', hsc', hb', hf', ho'⟩⟩

/-- Witness for C6 at `{"type": "apiKey"}` with no `name` and no `in`. -/
theorem C6_no_conditional_enforcement_witness :
    ∃ r, construct [("type", .vStr "apiKey")] = .ok r :=
  C6_no_conditional_enforcement [("type", .vStr "apiKey")]
    rfl rfl rfl rfl rfl rfl rfl rfl

/-- C7 counterexample: `{"type": "bogus"}` — a `type` outside the five
documented values — constructs successfully and the record stores
`"bogus"`; the enum is not enforced. -/
theorem C7_counterexample_type_enum_not_enforced :
    construct [("type", .vStr "bogus")] =
      .ok ⟨"bogus", none, none, none, none, none, none, none⟩ ∧
    "bogus" ∉ ["apiKey", "http", "mutualTLS", "oauth2", "openIdConnect"] :=
  ⟨rfl, by decide⟩

/-- C7 (amended): the `type` field stores exactly the string supplied
under the `type` key; any string is accepted, the five documented enum
values are not enforced. -/
theorem C7_amended_type_stores_any_string :
    (∀ s : String, construct [("type", .vStr s)] =
      .ok ⟨s, none, none, none, none, none, none, none⟩) ∧
    ∀ (m : WireMap) (r : SecurityScheme), construct m = .ok r →
      parseType m = .ok r.type :=
  ⟨fun _ => rfl, fun m r h => ((construct_ok_iff m r).1 h).1⟩

/-- Witness for C7 (amended) at `{"type": "http"}` and at the mapping
`{"type": "bogus"}` for the inversion conjunct. -/
theorem C7_amended_type_stores_any_string_witness :
    construct [("type", .vStr "http")] =
      .ok ⟨"http", none, none, none, none, none, none, none⟩ ∧
    parseType [("type", .vStr "bogus")] = .ok "bogus" :=
  ⟨C7_amended_type_stores_any_string.1 "http",
   C7_amended_type_stores_any_string.2 [("type", .vStr "bogus")]
     ⟨"bogus", none, none, none, none, none, none, none⟩ rfl⟩

/-- C8 counterexample: `{"type": "apiKey", "in": "body"}` — a location
outside `query`/`header`/`cookie` — constructs successfully and the
record stores `"body"`; the location enum is not enforced. -/
theorem C8_counterexample_in_enum_not_enforced :
    construct [("type", .vStr "apiKey"), ("in", .vStr "body")] =
      .ok ⟨"apiKey", none, none, some "body", none, none, none, none⟩ ∧
    "body" ∉ ["query", "header", "cookie"] :=
  ⟨rfl, by decide⟩

/-- C8 (amended): the location field stores exactly the string supplied
under the `in` key (or its internal name); any string is accepted, the
three documented values are not enforced. -/
theorem C8_amended_in_stores_any_string :
    (∀ s : String, construct [("type", .vStr "apiKey"), ("in", .vStr s)] =
      .ok ⟨"apiKey", none, none, some s, none, none, none, none⟩) ∧
    ∀ (m : WireMap) (r : SecurityScheme), construct m = .ok r →
      parseIn m = .ok r.security_scheme_in :=
  ⟨fun _ => rfl, fun m r h => ((construct_ok_iff m r).1 h).2.2.2.1⟩

/-- Witness for C8 (amended) at the location string `"header"` and at
the counterexample mapping for the inversion conjunct. -/
theorem C8_amended_in_stores_any_string_witness :
    construct [("type", .vStr "apiKey"), ("in", .vStr "header")] =
      .ok ⟨"apiKey", none, none, some "header", none, none, none, none⟩ ∧
    parseIn [("type", .vStr "apiKey"), ("in", .vStr "body")] = .ok (some "body") :=
  ⟨C8_amended_in_stores_any_string.1 "header",
   C8_amended_in_stores_any_string.2 [("type", .vStr "apiKey"), ("in", .vStr "body")]
     ⟨"apiKey", none, none, some "body", none, none, none, none⟩ rfl⟩

/-- C9: For every input mapping in which the `flows` key is bound to a
scalar value (not a nested mapping), construction fails and reports an
`InvalidFieldValue` error for `flows`; no record is produced. -/
theorem C9_flows_scalar_fails (m : WireMap) (v : Value)
    (hl : lookupK "flows" m = some v) (hs : isScalar v = true) :
    (∃ es, construct m = .error es ∧
      .invalidFieldValue "flows" "value is not a valid dict" ∈ es) ∧
    ∀ r, construct m ≠ .ok r := by
  have hf := parseFlows_error_of_scalar m v hl hs
  obtain ⟨es, he, hm⟩ := construct_error_of_parseFlows m _ hf
  refine ⟨⟨es, he, hm⟩, ?_⟩
  intro r hc
  rw [he] at hc
  exact absurd hc (by simp)

/-- Witness for C9 at `{"type": "oauth2", "flows": "implicit"}`. -/
theorem C9_flows_scalar_fails_witness :
    (∃ es, construct [("type", .vStr "oauth2"), ("flows", .vStr "implicit")] =
        .error es ∧
      .invalidFieldValue "flows" "value is not a valid dict" ∈ es) ∧
    ∀ r, construct [("type", .vStr "oauth2"), ("flows", .vStr "implicit")] ≠ .ok r :=
  C9_flows_scalar_fails [("type", .vStr "oauth2"), ("flows", .vStr "implicit")]
    (.vStr "implicit") rfl rfl

/-- C10: Construction and serialization are deterministic: equal input
mappings construct equal results and equal records serialize to equal
output mappings. -/
theorem C10_deterministic (m₁ m₂ : WireMap) (r₁ r₂ : SecurityScheme)
    (hm : m₁ = m₂) (hr : r₁ = r₂) :
    construct m₁ = construct m₂ ∧ serialize r₁ = serialize r₂ := by
  subst hm
  subst hr
  exact ⟨rfl, rfl⟩

/-- Witness for C10 at a concrete mapping and record. -/
theorem C10_deterministic_witness :
    construct [("type", .vStr "http")] = construct [("type", .vStr "http")] ∧
    serialize ⟨"http", none, none, none, none, none, none, none⟩ =
      serialize ⟨"http", none, none, none, none, none, none, none⟩ :=
  C10_deterministic [("type", .vStr "http")] [("type", .vStr "http")]
    ⟨"http", none, none, none, none, none, none, none⟩
    ⟨"http", none, none, none, none, none, none, none⟩ rfl rfl

end SecuritySchemeModel
